import Mathlib

/-!
Shallow embedding of the Qt SQLite wrapper (`platform/qt/src/sqlite3.cpp`,
namespace `mapbox::sqlite`): connection options, ad-hoc multi-statement
execution, typed parameter binding / column extraction, and the Transaction
scope object.  Qt library behaviour (QString::split, QVariant/QByteArray
null handling) is modelled explicitly where the wrapper depends on it.
-/

namespace MapboxSqlite

/-- QSqlError::ErrorType, the engine error code carried by the wrapper's
single exception type. -/
inductive QSqlErrorType
  | noError
  | connectionError
  | statementError
  | transactionError
  | unknownError
deriving DecidableEq, Repr

/-- The unified exception of the layer: `mapbox::sqlite::Exception` carries
the engine error code and the engine's message text (sqlite3.cpp lines
24-36, `checkQueryError` / `checkDatabaseError`). -/
structure SqlException where
  type : QSqlErrorType
  message : String
deriving DecidableEq, Repr

/-! ### QString::split on a single character (Qt semantics, KeepEmptyParts)

`Database::exec` calls `QString::fromStdString(sql).split(';')`.  Qt's
default split keeps empty parts: "a;" yields ["a", ""], "" yields [""].
Modelled character-by-character so the kernel can evaluate it. -/

/-- Character-level split on a separator, keeping empty parts, as Qt's
`QString::split(QChar)` does by default. -/
def splitKeepEmpty (sep : Char) : List Char → List (List Char)
  | [] => [[]]
  | c :: rest =>
    let r := splitKeepEmpty sep rest
    if c = sep then [] :: r
    else
      match r with
      | [] => [[c]]
      | h :: t => (c :: h) :: t

/-- `QString::split(';')` lifted to `String`. -/
def qsplitSemicolon (s : String) : List String :=
  (splitKeepEmpty ';' s.data).map (fun cs => String.mk cs)

example : qsplitSemicolon "a;b" = ["a", "b"] := by decide
example : qsplitSemicolon "a;" = ["a", ""] := by decide
example : qsplitSemicolon "" = [""] := by decide

/-! ### Database::exec (sqlite3.cpp lines 127-139)

The source splits on every ';' (no literal awareness), calls
`statements.removeAll("\n")` — which removes list elements that are exactly
the string "\n" — appends ';' back to each piece, prepares and executes each
in order, and `checkQueryError` throws at the first failing execution.
Engine behaviour for an individual statement is an oracle
`run : String → Option SqlException` (`none` = success). -/

/-- The ordered statement list `Database::exec` derives from its input:
split on ';', drop elements equal to "\n", re-append ';' to each. -/
def execStatementList (sql : String) : List String :=
  ((qsplitSemicolon sql).filter (fun t => t ≠ "\n")).map (fun t => t ++ ";")

/-- The loop body of `Database::exec`: execute statements in order, stop at
the first failure.  Returns the statements issued to the engine (in order)
and the exception thrown, if any. -/
def execLoop (run : String → Option SqlException) :
    List String → List String × Option SqlException
  | [] => ([], none)
  | st :: rest =>
    match run st with
    | some e => ([st], some e)
    | none =>
      let r := execLoop run rest
      (st :: r.1, r.2)

/-- `Database::exec(sql)`: statement list construction followed by the
execute loop. -/
def Database.exec (run : String → Option SqlException) (sql : String) :
    List String × Option SqlException :=
  execLoop run (execStatementList sql)

/-! ### DatabaseImpl constructor: open-flag translation (lines 40-58)

The fresh Qt connection starts with empty connect options.  Only the
`ReadOnly` and `SharedCache` bits are inspected (`flags & OpenFlag::ReadOnly`,
`flags & OpenFlag::SharedCache`); each appends its token, semicolon-separated.
The numeric values of `OpenFlag` live in sqlite3.hpp, which is not part of
the source here; the flags bitset is therefore modelled from the spec
("a flags bitset {ReadOnly, SharedCache}") as two recognized bits plus an
opaque remainder `other` for any bits outside the recognized set. -/

/-- Open-flag bitset.  Modelled from the spec: the spec describes a flags
bitset with recognized options ReadOnly and SharedCache; `other` stands for
any flag bits outside that recognized set (their numeric values are defined
in sqlite3.hpp, which is absent from src/). -/
structure OpenFlags where
  readOnly : Bool
  sharedCache : Bool
  other : Nat
deriving DecidableEq, Repr

/-- Append a connect-option token with Qt's semicolon separator, as the
`DatabaseImpl` constructor does: separator only when options are non-empty. -/
def appendOption (opts tok : String) : String :=
  (if opts = "" then opts else opts ++ ";") ++ tok

/-- The connect-options string the `DatabaseImpl` constructor hands to the
engine for a given flags bitset (lines 42-52). -/
def connectOptionsFor (flags : OpenFlags) : String :=
  let o1 := ""
  let o2 := if flags.readOnly then appendOption o1 "QSQLITE_OPEN_READONLY" else o1
  if flags.sharedCache then appendOption o2 "QSQLITE_ENABLE_SHARED_CACHE" else o2

/-! ### Database::setBusyTimeout (lines 111-125)

The source reads the current connect options and appends
"QSQLITE_BUSY_TIMEOUT=<ms>" — but only under `if (connectOptions.isEmpty())`;
note the inner `if (!connectOptions.isEmpty()) connectOptions.append(';')`
is dead under that guard.  It then closes the handle if open, sets the
options, reopens, and raises the connection error if reopening fails. -/

/-- The connect-options transformation performed by `setBusyTimeout`
(lines 113-117), faithful to the `isEmpty` guard in the source. -/
def setBusyTimeoutOptions (connectOptions : String) (timeoutMs : Int) : String :=
  if connectOptions = "" then
    (if connectOptions ≠ "" then connectOptions ++ ";" else connectOptions)
      ++ "QSQLITE_BUSY_TIMEOUT=" ++ toString timeoutMs
  else
    connectOptions

/-- Connection handle state relevant to `setBusyTimeout`. -/
structure ConnState where
  connectOptions : String
  isOpen : Bool
deriving DecidableEq, Repr

/-- `Database::setBusyTimeout` (lines 111-125): rewrite options, close if
open, set options, reopen; the reopen outcome is the oracle `reopenErr`
(`none` = success), surfaced via `checkDatabaseError`. -/
def Database.setBusyTimeout (reopenErr : Option SqlException) (timeoutMs : Int)
    (s : ConnState) : Except SqlException ConnState :=
  let opts := setBusyTimeoutOptions s.connectOptions timeoutMs
  match reopenErr with
  | some e => Except.error e
  | none => Except.ok { connectOptions := opts, isOpen := true }

/-! ### Value marshalling (QVariant / QByteArray model)

The wrapper stores each bound parameter as a `QVariant` and reads each
result column as a `QVariant`.  The engine round-trip preserves the stored
value for the types used here; a column value is therefore the same
`SqlValue` that was bound.  A default-constructed `QVariant()` is null. -/

/-- The dynamic value domain flowing through QVariant and the engine:
NULL, integers, doubles (payload kept as opaque bits — the wrapper never
computes with them), text, and binary blobs. -/
inductive SqlValue
  | null
  | integer (n : Int)
  | real (bits : Nat)
  | text (s : String)
  | blob (bytes : List Nat)
deriving DecidableEq, Repr

/-- A QByteArray distinguishes the null array from an empty one:
`none` models the null QByteArray, `some s` an array with contents `s`. -/
def QByteArray := Option String

/-- `QVariant::isNull`: true exactly for the null variant. -/
def SqlValue.isNull : SqlValue → Bool
  | SqlValue.null => true
  | _ => false

/-- `QVariant::toByteArray`: a null variant yields the null QByteArray;
text yields its characters; a blob yields its bytes; numbers yield their
textual form (Qt conversion). -/
def SqlValue.toByteArray : SqlValue → QByteArray
  | SqlValue.null => none
  | SqlValue.text s => some s
  | SqlValue.blob bytes => some (String.mk (bytes.map (fun b => Char.ofNat b)))
  | SqlValue.integer n => some (toString n)
  | SqlValue.real _ => some ""

/-- `QVariant::value<int64_t>` on the values the wrapper feeds it: the null
variant converts to 0, an integer to itself; other conversions follow Qt's
numeric coercion (text parses as a number or 0). -/
def SqlValue.toInt64 : SqlValue → Int
  | SqlValue.integer n => n
  | SqlValue.text s => (s.toInt?).getD 0
  | _ => 0

/-! ### Statement::bind (lines 185-228)

`bind(offset, nullptr_t)` stores a default `QVariant()` i.e. NULL;
`bind(offset, optional<T>)` dispatches on presence: a present value binds
normally, an absent one binds nullptr. -/

/-- `Statement::bind<std::nullptr_t>` (lines 185-190): stores `QVariant()`,
the null variant. -/
def Statement.bindNull : SqlValue := SqlValue.null

/-- `Statement::bind<optional<std::string>>` (lines 197-203). -/
def Statement.bindOptionalString : Option String → SqlValue
  | some v => SqlValue.text v
  | none => Statement.bindNull

/-! ### Timestamps (lines 192-195, 280-286)

`mbgl::Timestamp` is a `std::chrono::time_point`; it is modelled as an
integer count of milliseconds since the epoch.  `system_clock::to_time_t`
truncates the duration to whole seconds (toward zero, as C++ integer
conversion of durations does); `from_time_t` maps seconds back. -/

/-- `std::chrono::system_clock::to_time_t`: milliseconds to whole seconds,
truncating toward zero. -/
def to_time_t (msec : Int) : Int := msec.tdiv 1000

/-- `std::chrono::system_clock::from_time_t` followed by
`time_point_cast<seconds>` (identity on whole seconds): seconds back to the
millisecond-resolution timestamp. -/
def from_time_t (sec : Int) : Int := sec * 1000

/-- `Statement::bind<mbgl::Timestamp>` (lines 192-195): binds the
epoch-seconds integer obtained by `to_time_t`. -/
def Statement.bindTimestamp (v : Int) : SqlValue :=
  SqlValue.integer (to_time_t v)

/-- `Statement::bind<optional<mbgl::Timestamp>>` (lines 205-211). -/
def Statement.bindOptionalTimestamp : Option Int → SqlValue
  | some v => Statement.bindTimestamp v
  | none => Statement.bindNull

/-- `Statement::get<mbgl::Timestamp>` (lines 280-286): reads the stored
integer as `time_t` and converts back via `from_time_t`. -/
def Statement.getTimestamp (v : SqlValue) : Int :=
  from_time_t v.toInt64

/-- Modelled from the spec: "Timestamp extraction converts the engine's
stored integer (epoch seconds) to the application's timestamp type
truncated to whole-second precision" — truncation of a millisecond
timestamp to whole-second precision. -/
def specTruncateToSeconds (msec : Int) : Int := msec.tdiv 1000 * 1000

/-! ### Optional and plain column extraction (lines 288-331, 306-320) -/

/-- `Statement::get<optional<int64_t>>` (lines 288-295): absent on a NULL
column, otherwise the converted integer. -/
def Statement.getOptionalInt64 (v : SqlValue) : Option Int :=
  if v.isNull then none else some v.toInt64

/-- `Statement::get<optional<double>>` (lines 297-304): absent on a NULL
column, otherwise the converted double (payload bits, 0 for non-reals,
mirroring an opaque Qt conversion). -/
def Statement.getOptionalDouble (v : SqlValue) : Option Nat :=
  if v.isNull then none
  else some (match v with | SqlValue.real bits => bits | _ => 0)

/-- `Statement::get<optional<mbgl::Timestamp>>` (lines 322-331): absent on
a NULL column, otherwise `from_time_t` of the stored integer. -/
def Statement.getOptionalTimestamp (v : SqlValue) : Option Int :=
  if v.isNull then none else some (from_time_t v.toInt64)

/-- `Statement::get<std::string>` (lines 306-311): converts the column to a
QByteArray and builds a string from its data and size; the null QByteArray
has size 0, so a NULL column yields the empty string and no failure. -/
def Statement.getString (v : SqlValue) : String :=
  match v.toByteArray with
  | none => ""
  | some s => s

/-- `Statement::get<optional<std::string>>` (lines 313-320): converts to a
QByteArray first, returns absent when that byte array is null. -/
def Statement.getOptionalString (v : SqlValue) : Option String :=
  match v.toByteArray with
  | none => none
  | some s => some s

/-! ### Statement::bind(int, const char*, std::size_t, bool) (lines 213-224)

The length guard throws `std::range_error("value too long")` — a plain
standard-library exception carrying only a message — when the length
exceeds `std::numeric_limits<int>::max()`.  Only after the guard does the
value get bound, with any engine rejection surfacing through
`checkQueryError` as the unified `Exception` type. -/

/-- `std::numeric_limits<int>::max()`. -/
def intMax : Nat := 2147483647

/-- What a failing `Statement::bind(int, const char*, size_t, bool)` call
throws: either `std::range_error` (message only) from the length guard, or
the wrapper's unified `Exception` (engine code and message) from
`checkQueryError`. -/
inductive BindFailure
  | rangeError (msg : String)
  | unifiedException (type : QSqlErrorType) (message : String)
deriving DecidableEq, Repr

/-- Is the failure the unified exception type carrying
(engine-error-code, message)? -/
def BindFailure.isUnifiedException : BindFailure → Bool
  | BindFailure.unifiedException _ _ => true
  | BindFailure.rangeError _ => false

/-- The control flow of `Statement::bind(int, const char*, std::size_t,
bool)` as a function of the byte length (lines 213-224): lengths above
`intMax` throw a range error before anything is bound; otherwise the bind
proceeds and an engine error (oracle `bindErr`) becomes the unified
exception. -/
def Statement.bindBlobLen (length : Nat) (bindErr : Option SqlException) :
    Except BindFailure Unit :=
  if length > intMax then
    Except.error (BindFailure.rangeError "value too long")
  else
    match bindErr with
    | some e => Except.error (BindFailure.unifiedException e.type e.message)
    | none => Except.ok ()

/-! ### Statement::reset / Statement::clearBindings (lines 333-339)

Both bodies are empty (`// no-op`). -/

/-- The observable state of a prepared `Statement`: its bound parameter
values, the compiled query text, and the execution/row position. -/
structure StatementState where
  bindings : List (Int × SqlValue)
  compiledQuery : String
  position : Int
deriving DecidableEq, Repr

/-- `Statement::reset` (lines 333-335): empty body. -/
def Statement.reset (s : StatementState) : StatementState := s

/-- `Statement::clearBindings` (lines 337-339): empty body. -/
def Statement.clearBindings (s : StatementState) : StatementState := s

/-! ### Transaction (lines 349-382)

`commit()` first clears `needRollback`, then execs COMMIT (which may
throw); `rollback()` likewise clears the flag and execs ROLLBACK; the
destructor rolls back only when `needRollback` is still set, inside a
try/catch that discards any exception.  The `needRollback` member's initial
value is declared in sqlite3.hpp (not under src/); modelled from the spec:
construction leaves the Transaction `Active`, with scope-exit rollback
armed. -/

/-- A transaction-resolution statement issued to the engine. -/
inductive TxStmt
  | commitStmt
  | rollbackStmt
deriving DecidableEq, Repr

/-- Transaction object state: the `needRollback` flag and, for the
development, the ordered trace of resolution statements issued on the
connection by this instance. -/
structure TxState where
  needRollback : Bool
  resolved : List TxStmt
deriving DecidableEq, Repr

/-- State after the constructor ran BEGIN: `Active`, no resolution
statement issued yet.  Modelled from the spec for the flag's initial value
(see section comment). -/
def Transaction.initial : TxState :=
  { needRollback := true, resolved := [] }

/-- `Transaction::commit` (lines 374-377): `needRollback = false;` first,
then `db.exec("COMMIT TRANSACTION")`, whose outcome the oracle `execErr`
gives (`some e` = the COMMIT statement failed and exec threw `e`). -/
def Transaction.commit (execErr : Option SqlException) (s : TxState) :
    TxState × Option SqlException :=
  ({ needRollback := false, resolved := s.resolved ++ [TxStmt.commitStmt] }, execErr)

/-- `Transaction::rollback` (lines 379-382): `needRollback = false;` then
`db.exec("ROLLBACK TRANSACTION")`. -/
def Transaction.rollback (execErr : Option SqlException) (s : TxState) :
    TxState × Option SqlException :=
  ({ needRollback := false, resolved := s.resolved ++ [TxStmt.rollbackStmt] }, execErr)

/-- `Transaction::~Transaction` (lines 364-372): when `needRollback` is
still set, call `rollback()` inside try/catch and discard any exception;
otherwise do nothing.  The second component is what escapes the destructor:
always `none`. -/
def Transaction.destructor (execErr : Option SqlException) (s : TxState) :
    TxState × Option SqlException :=
  if s.needRollback then
    ((Transaction.rollback execErr s).1, none)
  else
    (s, none)

/-- The explicit call a client makes on a Transaction before its scope
ends: nothing, `commit()` (with the COMMIT statement's outcome), or
`rollback()` (with the ROLLBACK statement's outcome). -/
inductive TxAction
  | noAction
  | explicitCommit (execErr : Option SqlException)
  | explicitRollback (execErr : Option SqlException)
deriving DecidableEq, Repr

/-- A full Transaction lifetime: construction, at most one explicit
commit/rollback call, then the destructor (whose own ROLLBACK outcome is
`dtorErr`). -/
def Transaction.runScope (a : TxAction) (dtorErr : Option SqlException) : TxState :=
  let s1 :=
    match a with
    | TxAction.noAction => Transaction.initial
    | TxAction.explicitCommit e => (Transaction.commit e Transaction.initial).1
    | TxAction.explicitRollback e => (Transaction.rollback e Transaction.initial).1
  (Transaction.destructor dtorErr s1).1

/-! ## Theorems -/

/-- Helper: the execute loop runs every successful statement in order and
stops at the first failing one, returning its exception; statements after
the failure are never issued. -/
theorem execLoop_first_failure (run : String → Option SqlException)
    (e : SqlException) :
    ∀ (pre : List String) (bad : String) (post : List String),
    (∀ s ∈ pre, run s = none) → run bad = some e →
    execLoop run (pre ++ bad :: post) = (pre ++ [bad], some e) := by
  intro pre
  induction pre with
  | nil =>
    intro bad post _ hbad
    simp [execLoop, hbad]
  | cons h t ih =>
    intro bad post hpre hbad
    have hh : run h = none := hpre h (by simp)
    have ht : ∀ s ∈ t, run s = none := fun s hs => hpre s (by simp [hs])
    simp [execLoop, hh, ih bad post ht hbad]

/-- C1: `setBusyTimeout` evaluated on the failing input.  With the connect
options produced by the ReadOnly open flag the busy-timeout token is never
added (the append is guarded by `connectOptions.isEmpty()`), while with
empty options it is; the reopen failure surfaces as the connection error
and a successful reopen applies the (unchanged or extended) options. -/
theorem setBusyTimeout_code_eval :
    setBusyTimeoutOptions "QSQLITE_OPEN_READONLY" 10 = "QSQLITE_OPEN_READONLY" ∧
    setBusyTimeoutOptions "" 10 = "QSQLITE_BUSY_TIMEOUT=10" ∧
    (∀ (e : SqlException) (t : Int) (s : ConnState),
      Database.setBusyTimeout (some e) t s = Except.error e) ∧
    (∀ (t : Int) (s : ConnState),
      Database.setBusyTimeout none t s
        = Except.ok { connectOptions := setBusyTimeoutOptions s.connectOptions t,
                      isOpen := true }) :=
  ⟨by decide, by decide, fun _ _ _ => rfl, fun _ _ => rfl⟩

/-- C2: across every lifetime path — no explicit call, successful or failed
`commit()`, successful or failed `rollback()` — exactly one
transaction-resolution statement is issued, and after any `commit()` or
`rollback()` call (even one whose statement failed) the destructor issues
nothing further. -/
theorem transaction_exactly_one_resolution :
    ∀ (a : TxAction) (d : Option SqlException),
    (Transaction.runScope a d).resolved.length = 1 ∧
    (∀ e, (Transaction.destructor d (Transaction.commit e Transaction.initial).1).1
        = (Transaction.commit e Transaction.initial).1) ∧
    (∀ e, (Transaction.destructor d (Transaction.rollback e Transaction.initial).1).1
        = (Transaction.rollback e Transaction.initial).1) := by
  intro a d
  refine ⟨?_, fun e => rfl, fun e => rfl⟩
  cases a <;> rfl

/-- C3: `Database::exec` derives the ordered statement list by naive
semicolon splitting (`execStatementList`), runs the statements in that
order, and stops with the first failing statement's exception, leaving the
statements after it unexecuted. -/
theorem exec_splits_and_stops_at_first_failure
    (run : String → Option SqlException) (sql : String)
    (pre : List String) (bad : String) (post : List String) (e : SqlException)
    (hsplit : execStatementList sql = pre ++ bad :: post)
    (hpre : ∀ s ∈ pre, run s = none)
    (hbad : run bad = some e) :
    Database.exec run sql = (pre ++ [bad], some e) := by
  unfold Database.exec
  rw [hsplit]
  exact execLoop_first_failure run e pre bad post hpre hbad

/-- Oracle for the C3 witness: the malformed middle statement fails,
everything else succeeds. -/
def execFailOracle : String → Option SqlException := fun s =>
  if s = "UPDATE t SET a = ;" then
    some { type := QSqlErrorType.statementError, message := "syntax error" }
  else
    none

/-- C3 witness: a three-statement input whose middle statement fails stops
the loop right there; the trailing statement is never issued. -/
theorem exec_splits_and_stops_witness :
    Database.exec execFailOracle "CREATE TABLE t(a);UPDATE t SET a = ;DROP TABLE t"
      = (["CREATE TABLE t(a);", "UPDATE t SET a = ;"],
         some { type := QSqlErrorType.statementError, message := "syntax error" }) :=
  exec_splits_and_stops_at_first_failure execFailOracle
    "CREATE TABLE t(a);UPDATE t SET a = ;DROP TABLE t"
    ["CREATE TABLE t(a);"] "UPDATE t SET a = ;" ["DROP TABLE t;"]
    { type := QSqlErrorType.statementError, message := "syntax error" }
    (by decide) (by decide) (by decide)

/-- C4 counterexample: at length 2^31 (one past `INT_MAX`) the failure the
bind raises is `std::range_error("value too long")`, which carries only a
message and is not the unified exception type carrying
(engine-error-code, message). -/
theorem bindBlob_overlong_not_unified :
    Statement.bindBlobLen 2147483648 none
      = Except.error (BindFailure.rangeError "value too long") ∧
    (BindFailure.rangeError "value too long").isUnifiedException = false :=
  ⟨rfl, rfl⟩

/-- C4 amended: every length above `INT_MAX` fails with the range error
`std::range_error("value too long")` — before the engine is consulted —
rather than with the unified (engine-error-code, message) exception. -/
theorem bindBlob_overlong_range_error (length : Nat)
    (bindErr : Option SqlException) (h : length > intMax) :
    Statement.bindBlobLen length bindErr
      = Except.error (BindFailure.rangeError "value too long") := by
  simp [Statement.bindBlobLen, h]

/-- C4 witness: the amended theorem applied at length 2^31. -/
theorem bindBlob_overlong_range_error_witness :
    Statement.bindBlobLen 2147483648 none
      = Except.error (BindFailure.rangeError "value too long") :=
  bindBlob_overlong_range_error 2147483648 none (by decide)

/-- C5: binding SQL NULL — via the dedicated nullptr marker or an absent
optional — and reading the column back as any of the supported optional
types (`int64`, `double`, `string`, `timestamp`) yields an absent result. -/
theorem bind_null_reads_absent :
    Statement.getOptionalInt64 Statement.bindNull = none ∧
    Statement.getOptionalDouble Statement.bindNull = none ∧
    Statement.getOptionalString Statement.bindNull = none ∧
    Statement.getOptionalTimestamp Statement.bindNull = none ∧
    Statement.bindOptionalString none = Statement.bindNull ∧
    Statement.bindOptionalTimestamp none = Statement.bindNull :=
  ⟨rfl, rfl, rfl, rfl, rfl, rfl⟩

/-- C6: binding a timestamp stores its epoch-seconds integer and reading it
back returns the timestamp truncated to whole-second precision (the spec's
truncation, `specTruncateToSeconds`). -/
theorem timestamp_roundtrip_truncates (v : Int) :
    Statement.getTimestamp (Statement.bindTimestamp v) = specTruncateToSeconds v :=
  rfl

/-- C7: on scope exit the destructor attempts a rollback exactly when
`needRollback` is still set, and whatever the rollback's outcome, no
exception escapes the destructor (second component is always `none`). -/
theorem destructor_swallows_rollback_errors (s : TxState) (e : Option SqlException) :
    (Transaction.destructor e s).2 = none ∧
    (Transaction.destructor e s).1.resolved
      = (if s.needRollback then s.resolved ++ [TxStmt.rollbackStmt] else s.resolved) := by
  cases h : s.needRollback <;>
    simp [Transaction.destructor, Transaction.rollback, h]

/-- C8 counterexample: two flag bitsets that differ only in a bit outside
the recognized {ReadOnly, SharedCache} set produce the same (empty)
connect-options string — the unrecognized bit is dropped, not passed
through to the engine. -/
theorem openFlags_unrecognized_bit_dropped :
    connectOptionsFor { readOnly := false, sharedCache := false, other := 1 }
      = connectOptionsFor { readOnly := false, sharedCache := false, other := 0 } ∧
    connectOptionsFor { readOnly := false, sharedCache := false, other := 1 } = "" ∧
    ({ readOnly := false, sharedCache := false, other := 1 } : OpenFlags)
      ≠ { readOnly := false, sharedCache := false, other := 0 } :=
  ⟨rfl, rfl, by decide⟩

/-- C8 amended: the connect-options string depends only on the ReadOnly and
SharedCache bits — it equals the semicolon-separated concatenation of their
tokens — and every flag bit outside the recognized set is ignored. -/
theorem openFlags_translation (f : OpenFlags) :
    connectOptionsFor f
      = connectOptionsFor { readOnly := f.readOnly, sharedCache := f.sharedCache,
                            other := 0 } ∧
    connectOptionsFor f
      = (if f.readOnly then
           (if f.sharedCache then "QSQLITE_OPEN_READONLY;QSQLITE_ENABLE_SHARED_CACHE"
            else "QSQLITE_OPEN_READONLY")
         else
           (if f.sharedCache then "QSQLITE_ENABLE_SHARED_CACHE" else "")) := by
  obtain ⟨r, c, o⟩ := f
  cases r <;> cases c <;> exact ⟨rfl, rfl⟩

/-- C9: `reset()` and `clearBindings()` are no-ops: the bound parameter
values, the compiled query, and the execution position are all unchanged. -/
theorem reset_clearBindings_noop (s : StatementState) :
    Statement.reset s = s ∧
    Statement.clearBindings s = s ∧
    (Statement.reset s).bindings = s.bindings ∧
    (Statement.reset s).compiledQuery = s.compiledQuery ∧
    (Statement.reset s).position = s.position ∧
    (Statement.clearBindings s).bindings = s.bindings ∧
    (Statement.clearBindings s).compiledQuery = s.compiledQuery ∧
    (Statement.clearBindings s).position = s.position :=
  ⟨rfl, rfl, rfl, rfl, rfl, rfl, rfl, rfl⟩

/-- C10: reading a NULL column as a plain string returns `""` (total, no
failure), reading it as an optional string returns absent, and on every
non-NULL column the two extractions agree (`some` of the plain result) —
so they are distinguishable only on NULL columns. -/
theorem null_string_extraction (v : SqlValue) :
    Statement.getString SqlValue.null = "" ∧
    Statement.getOptionalString SqlValue.null = none ∧
    (v ≠ SqlValue.null →
      Statement.getOptionalString v = some (Statement.getString v)) := by
  refine ⟨rfl, rfl, ?_⟩
  intro h
  cases v with
  | null => exact absurd rfl h
  | integer n => rfl
  | real bits => rfl
  | text s => rfl
  | blob bytes => rfl

/-- C10 witness: the agreement on a non-NULL column, at a concrete text
value. -/
theorem null_string_extraction_witness :
    Statement.getOptionalString (SqlValue.text "abc")
      = some (Statement.getString (SqlValue.text "abc")) :=
  (null_string_extraction (SqlValue.text "abc")).2.2 (by decide)

end MapboxSqlite
